import Mathlib

/-!
Verification of the auth core of fmm-bench (TypeScript) against its
specification, via a shallow embedding in Lean 4.

Embedding conventions:
- JS strings are Lean `String`; `Date.now()` milliseconds and Unix seconds
  are `Nat` values passed explicitly (the Clock collaborator is injectable
  per the spec).
- Node builtins (crypto.createHmac, JSON.stringify/parse with base64url,
  crypto.scrypt) are external collaborators: they are abstracted as a
  `Crypto` structure / function parameters, with their contractual
  properties (dot-free base64url output, serialization round-trip) taken as
  explicit hypotheses where a theorem needs them. A concrete instance
  (`wCrypto`) discharges those hypotheses in witnesses.
- The JavaScript single-character `String.prototype.split` is modelled by
  `splitSep` / `jsSplit` below, matching its semantics exactly
  ("" maps to [""], "a.b" to ["a","b"], "." to ["",""]).
- The database is modelled as the list of Session rows it holds; SQL
  statements of session.ts become the corresponding pure list operations.
- Mutable middleware state (the rate-limit Map) is threaded explicitly as a
  finite map `String -> Option RateEntry`.
-/

/-- `UserRole` enum from src/types (string enum: admin, moderator, user, guest). -/
inductive UserRole where
  | admin
  | moderator
  | user
  | guest
deriving DecidableEq, Repr

/-- Runtime string value of a `UserRole` enum member (TS string enum). -/
def UserRole.toStr : UserRole → String
  | .admin => "admin"
  | .moderator => "moderator"
  | .user => "user"
  | .guest => "guest"

/-- `JwtPayload` from src/types: sub, email, role, iat, exp, jti. -/
structure JwtPayload where
  sub : String
  email : String
  role : UserRole
  iat : Nat
  exp : Nat
  jti : String
deriving DecidableEq, Repr

/-- `AuthTokens` from src/types: token pair plus expiry seconds; tokenType is
the fixed literal "Bearer" and is omitted as carrying no information. -/
structure AuthTokens where
  accessToken : String
  refreshToken : String
  expiresIn : Nat
deriving DecidableEq, Repr

/-- The configuration surface consumed by the core (src/config/env.ts). -/
structure Config where
  JWT_SECRET : String
  JWT_EXPIRY : Nat
  REFRESH_EXPIRY : Nat
deriving Repr

/-- Default configuration values from src/config/env.ts. -/
def defaultConfig : Config :=
  { JWT_SECRET := "dev-secret-change-in-production"
    JWT_EXPIRY := 900
    REFRESH_EXPIRY := 604800 }

/-- `ApiResponse` from src/types (data specialized to `AuthTokens`, the only
payload type the claims need). -/
structure ApiResponse where
  success : Bool
  data : Option AuthTokens
  error : Option String
  message : Option String
  statusCode : Nat
deriving DecidableEq, Repr

/-- `User` record from src/types (fields the auth controller reads). -/
structure User where
  id : String
  email : String
  username : String
  passwordHash : String
  role : UserRole
  isActive : Bool
deriving DecidableEq, Repr

/-- `Session` row from src/auth/session.ts; timestamps in milliseconds. -/
structure Session where
  id : String
  userId : String
  refreshToken : String
  userAgent : String
  ipAddress : String
  expiresAt : Nat
  createdAt : Nat
deriving DecidableEq, Repr

/-- Split a character list at every occurrence of `sep`, JavaScript
`String.prototype.split` semantics for a one-character separator. -/
def splitSep (sep : Char) : List Char → List (List Char)
  | [] => [[]]
  | c :: rest =>
    if c = sep then [] :: splitSep sep rest
    else
      match splitSep sep rest with
      | [] => [[c]]
      | seg :: segs => (c :: seg) :: segs

/-- JavaScript `s.split(sep)` for a one-character separator, on `String`. -/
def jsSplit (sep : Char) (s : String) : List String :=
  (splitSep sep s.data).map String.mk

/-- `splitSep` never returns the empty list. -/
theorem splitSep_ne_nil (sep : Char) (l : List Char) : splitSep sep l ≠ [] := by
  cases l with
  | nil => simp [splitSep]
  | cons c rest =>
    simp only [splitSep]
    split
    · simp
    · cases h : splitSep sep rest <;> simp

/-- A separator-free list splits to the single segment holding it whole. -/
theorem splitSep_of_not_mem (sep : Char) (l : List Char) (h : sep ∉ l) :
    splitSep sep l = [l] := by
  induction l with
  | nil => rfl
  | cons c rest ih =>
    simp only [List.mem_cons, not_or] at h
    simp only [splitSep]
    rw [if_neg (fun hc => h.1 hc.symm), ih h.2]

/-- Splitting a list that starts with a separator-free prefix followed by a
separator peels off that prefix as the first segment. -/
theorem splitSep_append (sep : Char) (a rest : List Char) (ha : sep ∉ a) :
    splitSep sep (a ++ sep :: rest) = a :: splitSep sep rest := by
  induction a with
  | nil => simp [splitSep]
  | cons c a' ih =>
    simp only [List.mem_cons, not_or] at ha
    simp only [List.cons_append, splitSep]
    rw [if_neg (fun hc => ha.1 hc.symm)]
    simp only [List.append_eq]
    rw [ih ha.2]

/-- A three-segment dot-joined token splits into exactly its three segments
when none of them contains a dot. -/
theorem splitSep_three (a b c : List Char)
    (ha : '.' ∉ a) (hb : '.' ∉ b) (hc : '.' ∉ c) :
    splitSep '.' (a ++ '.' :: (b ++ '.' :: c)) = [a, b, c] := by
  rw [splitSep_append '.' a _ ha, splitSep_append '.' b _ hb,
    splitSep_of_not_mem '.' c hc]

/-- The external cryptography and serialization collaborators used by
src/auth/jwt.ts: `hmac secret message` models
crypto.createHmac("sha256", secret).update(message).digest("base64url");
`encodePayload` models base64url(JSON.stringify(payload)); `decodePayload`
models JSON.parse(base64url-decode(segment)) with failure as `none`;
`headerStr` is the fixed base64url-encoded JWT header. -/
structure Crypto where
  hmac : String → String → String
  encodePayload : JwtPayload → String
  decodePayload : String → Option JwtPayload
  headerStr : String

/-- `sign` from src/auth/jwt.ts: header.payload.signature, the signature an
HMAC over the first two dot-joined segments. -/
def sign (c : Crypto) (payload : JwtPayload) (secret : String) : String :=
  let header := c.headerStr
  let body := c.encodePayload payload
  let signature := c.hmac secret (header ++ "." ++ body)
  header ++ "." ++ body ++ "." ++ signature

/-- `generateAccessToken` from src/auth/jwt.ts: payload with
exp = now + JWT_EXPIRY, signed with the access secret. `now` is Unix
seconds, `jti` the fresh random UUID. -/
def generateAccessToken (c : Crypto) (cfg : Config) (now : Nat) (jti : String)
    (userId email : String) (role : UserRole) : String :=
  sign c { sub := userId, email := email, role := role, iat := now,
           exp := now + cfg.JWT_EXPIRY, jti := jti } cfg.JWT_SECRET

/-- `generateRefreshToken` from src/auth/jwt.ts: payload with
exp = now + REFRESH_EXPIRY, signed with the access secret plus the fixed
suffix "_refresh". -/
def generateRefreshToken (c : Crypto) (cfg : Config) (now : Nat) (jti : String)
    (userId email : String) (role : UserRole) : String :=
  sign c { sub := userId, email := email, role := role, iat := now,
           exp := now + cfg.REFRESH_EXPIRY, jti := jti }
    (cfg.JWT_SECRET ++ "_refresh")

/-- `verifyToken` from src/auth/jwt.ts: split into exactly three segments,
recompute the HMAC with the secret selected by `isRefresh`, reject on
mismatch, decode the payload (decoding failure yields none), reject when
exp is strictly before now. -/
def verifyToken (c : Crypto) (cfg : Config) (now : Nat) (token : String)
    (isRefresh : Bool) : Option JwtPayload :=
  match jsSplit '.' token with
  | [p0, p1, p2] =>
    let secret := if isRefresh then cfg.JWT_SECRET ++ "_refresh" else cfg.JWT_SECRET
    let expectedSig := c.hmac secret (p0 ++ "." ++ p1)
    if expectedSig ≠ p2 then none
    else
      (c.decodePayload p1).bind
        (fun payload => if payload.exp < now then none else some payload)
  | _ => none

/-- `createTokenPair` from src/auth/jwt.ts: access and refresh tokens for the
same identity, expiresIn set to JWT_EXPIRY. `jtiA` and `jtiR` are the two
fresh UUIDs consumed by the two mints. -/
def createTokenPair (c : Crypto) (cfg : Config) (now : Nat) (jtiA jtiR : String)
    (userId email : String) (role : UserRole) : AuthTokens :=
  { accessToken := generateAccessToken c cfg now jtiA userId email role
    refreshToken := generateRefreshToken c cfg now jtiR userId email role
    expiresIn := cfg.JWT_EXPIRY }

/-- Hex value of one character, Node Buffer semantics (0-9, a-f, A-F). -/
def hexVal (c : Char) : Option Nat :=
  if '0' ≤ c ∧ c ≤ '9' then some (c.toNat - 48)
  else if 'a' ≤ c ∧ c ≤ 'f' then some (c.toNat - 87)
  else if 'A' ≤ c ∧ c ≤ 'F' then some (c.toNat - 55)
  else none

/-- Node Buffer.from(s, "hex"): decode two-character byte pairs, stopping at
the first invalid pair (truncation, not an error); a dangling odd character
is dropped. -/
def hexDecode : List Char → List Nat
  | c1 :: c2 :: rest =>
    match hexVal c1, hexVal c2 with
    | some h, some l => (16 * h + l) :: hexDecode rest
    | _, _ => []
  | _ => []

/-- Node crypto.timingSafeEqual: throws (here, an error result) when the two
buffers have different lengths, otherwise reports byte equality. -/
def timingSafeEqual (a b : List Nat) : Except String Bool :=
  if a.length = b.length then .ok (decide (a = b))
  else .error "ERR_CRYPTO_TIMING_SAFE_EQUAL_LENGTH"

/-- `comparePassword` from src/utils/hash.ts. The stored value is split on
the colon; JS destructuring takes the first two segments, a missing segment
being undefined, and the falsy guard catches both undefined and the empty
string, returning false. Otherwise scrypt re-derives the key (the external
KDF is the `scrypt` parameter, producing the derived key bytes) and
crypto.timingSafeEqual compares it with the hex-decoded stored key. An
exception escaping that comparison surfaces as an error result. -/
def comparePassword (scrypt : String → String → List Nat)
    (password storedHash : String) : Except String Bool :=
  let parts := jsSplit ':' storedHash
  let salt := parts.getD 0 ""
  let hash := parts.getD 1 ""
  if salt = "" ∨ hash = "" then .ok false
  else timingSafeEqual (hexDecode hash.data) (scrypt password salt)

/-- `Permission` enum from src/auth/permissions.ts. -/
inductive Permission where
  | readOwnProfile
  | updateOwnProfile
  | deleteOwnAccount
  | readAnyProfile
  | updateAnyProfile
  | deleteAnyAccount
  | listUsers
  | manageRoles
  | viewAuditLog
deriving DecidableEq, Repr

/-- Object.values(Permission): every permission in declaration order. -/
def allPermissions : List Permission :=
  [.readOwnProfile, .updateOwnProfile, .deleteOwnAccount, .readAnyProfile,
   .updateAnyProfile, .deleteAnyAccount, .listUsers, .manageRoles, .viewAuditLog]

/-- The RolePermissions map from src/auth/permissions.ts, keyed by the
runtime string value of the role enum, each list authored explicitly. -/
def RolePermissions : List (String × List Permission) :=
  [ (UserRole.guest.toStr, [.readOwnProfile]),
    (UserRole.user.toStr,
      [.readOwnProfile, .updateOwnProfile, .deleteOwnAccount]),
    (UserRole.moderator.toStr,
      [.readOwnProfile, .updateOwnProfile, .deleteOwnAccount,
       .readAnyProfile, .listUsers, .viewAuditLog]),
    (UserRole.admin.toStr, allPermissions) ]

/-- Map.get on the role-permission table. -/
def mapGet (key : String) : List (String × List Permission) → Option (List Permission)
  | [] => none
  | (k, v) :: rest => if k = key then some v else mapGet key rest

/-- `hasPermission` from src/auth/permissions.ts: table lookup, a missing
entry yields false, otherwise list membership (Array.includes). -/
def hasPermission (role : String) (permission : Permission) : Bool :=
  match mapGet role RolePermissions with
  | none => false
  | some permissions => decide (permission ∈ permissions)

/-- The request shape seen by the middleware in
src/api/middleware/auth-middleware.ts. -/
structure Request where
  authHeader : Option String
  user : Option JwtPayload
  ip : Option String
deriving DecidableEq, Repr

/-- Outcome of one Express-style middleware call: either next() was invoked
with the (possibly augmented) request, or a response was written and the
chain stopped. -/
inductive MWResult where
  | next (req : Request)
  | respond (res : ApiResponse)
deriving DecidableEq, Repr

/-- The `res.status(code).json(\x7b success: false, error, statusCode \x7d)`
response shape the middleware and the auth controller write on failure. -/
def ApiResponse.err (msg : String) (code : Nat) : ApiResponse :=
  { success := false, data := none, error := some msg, message := none,
    statusCode := code }

/-- `requireRole` from src/api/middleware/auth-middleware.ts: 401 when no
payload is attached, 403 Forbidden when the attached role is not among the
required roles, otherwise next(). -/
def requireRole (roles : List UserRole) (req : Request) : MWResult :=
  match req.user with
  | none => .respond (ApiResponse.err "Authentication required" 401)
  | some u =>
    if u.role ∈ roles then .next req
    else .respond (ApiResponse.err "Forbidden" 403)

/-- One rate-limit entry of the in-process rateLimitStore Map. -/
structure RateEntry where
  count : Nat
  resetAt : Nat
deriving DecidableEq, Repr

/-- The rateLimitStore Map, as a finite partial map from keys to entries. -/
def RateStore := String → Option RateEntry

/-- `rateLimitAuth` from src/api/middleware/auth-middleware.ts: key is the
caller ip (or "unknown"); an entry within its window either blocks with 429
when the count has reached maxAttempts (without touching the entry) or is
incremented; a missing or elapsed entry is replaced by count 1 with a fresh
reset time; every non-blocked path calls next(). -/
def rateLimitAuth (maxAttempts windowMs : Nat) (now : Nat) (req : Request)
    (store : RateStore) : MWResult × RateStore :=
  let key := req.ip.getD "unknown"
  match store key with
  | some entry =>
    if now < entry.resetAt then
      if maxAttempts ≤ entry.count then
        (.respond (ApiResponse.err "Too many attempts. Try again later." 429), store)
      else
        (.next req,
         fun k => if k = key then some { entry with count := entry.count + 1 }
                  else store k)
    else
      (.next req,
       fun k => if k = key then some { count := 1, resetAt := now + windowMs }
                else store k)
  | none =>
    (.next req,
     fun k => if k = key then some { count := 1, resetAt := now + windowMs }
              else store k)

/-- `SessionManager.create` from src/auth/session.ts: build the Session row
with expiresAt = now + tokens.expiresIn seconds and insert it. The email and
role arguments are accepted and unused, as in the source; nowMs is
Date.now(), sessionId the fresh random UUID, db the sessions table. -/
def SessionManager.create (nowMs : Nat) (sessionId : String)
    (userId email role : String) (tokens : AuthTokens)
    (userAgent ipAddress : String) (db : List Session) :
    Session × List Session :=
  let session : Session :=
    { id := sessionId, userId := userId, refreshToken := tokens.refreshToken,
      userAgent := userAgent, ipAddress := ipAddress,
      expiresAt := nowMs + tokens.expiresIn * 1000, createdAt := nowMs }
  (session, db ++ [session])

/-- `SessionManager.refresh` from src/auth/session.ts: verify the presented
token as a refresh token; select the sessions whose stored refresh token
equals it and whose expiry is in the future; none means invalid; otherwise
mint a fresh pair for the same identity and overwrite the refresh-token
field of every row keyed by the old value (the single-row UPDATE). -/
def SessionManager.refresh (c : Crypto) (cfg : Config) (nowMs : Nat)
    (jtiA jtiR : String) (db : List Session) (refreshToken : String) :
    Option (AuthTokens × List Session) :=
  match verifyToken c cfg (nowMs / 1000) refreshToken true with
  | none => none
  | some payload =>
    let matching := db.filter
      (fun s => decide (s.refreshToken = refreshToken ∧ nowMs < s.expiresAt))
    if matching.length = 0 then none
    else
      let newTokens := createTokenPair c cfg (nowMs / 1000) jtiA jtiR
        payload.sub payload.email payload.role
      let db2 := db.map (fun s =>
        if s.refreshToken = refreshToken
        then { s with refreshToken := newTokens.refreshToken } else s)
      some (newTokens, db2)

/-- The generic authentication-failure response of AuthController.login. -/
def invalidCredentials : ApiResponse :=
  { success := false, data := none, error := some "Invalid credentials",
    message := none, statusCode := 401 }

/-- `AuthController.login` from src/api/controllers/auth-controller.ts:
look the user up by email; a missing or inactive user yields the generic
invalid-credentials response; then comparePassword, a false result yielding
the same generic response; on success mint a pair, persist a session and
return 200 with the tokens. The audit-log insert and lastLoginAt update are
writes to the persistence collaborator that nothing here reads back and are
not tracked; the sessions table is. A comparePassword exception propagates
as an error result. -/
def AuthController.login (c : Crypto) (cfg : Config)
    (scrypt : String → String → List Nat)
    (findByEmail : String → Option User)
    (nowMs : Nat) (jtiA jtiR sessionId : String)
    (credEmail credPassword : String) (ip userAgent : String)
    (db : List Session) : Except String (ApiResponse × List Session) :=
  match findByEmail credEmail with
  | none => .ok (invalidCredentials, db)
  | some user =>
    if user.isActive = false then .ok (invalidCredentials, db)
    else
      match comparePassword scrypt credPassword user.passwordHash with
      | .error e => .error e
      | .ok false => .ok (invalidCredentials, db)
      | .ok true =>
        let tokens := createTokenPair c cfg (nowMs / 1000) jtiA jtiR
          user.id user.email user.role
        let db2 := (SessionManager.create nowMs sessionId user.id user.email
          user.role.toStr tokens userAgent ip db).2
        .ok ({ success := true, data := some tokens, error := none,
               message := none, statusCode := 200 }, db2)

/-- Parse a decimal numeral, the inverse of toString on Nat for the witness
codec; none on the empty list or a non-digit. -/
def parseNat (l : List Char) : Option Nat :=
  if l = [] then none
  else
    l.foldl
      (fun acc c =>
        match acc with
        | none => none
        | some n =>
          if '0' ≤ c ∧ c ≤ '9' then some (n * 10 + (c.toNat - 48)) else none)
      (some 0)

/-- Inverse of `UserRole.toStr`. -/
def UserRole.ofStr (s : String) : Option UserRole :=
  if s = "admin" then some .admin
  else if s = "moderator" then some .moderator
  else if s = "user" then some .user
  else if s = "guest" then some .guest
  else none

/-- Witness serializer standing in for base64url(JSON.stringify(payload)):
a bar-separated rendering of the six payload fields. -/
def wEncode (p : JwtPayload) : String :=
  p.sub ++ "|" ++ p.email ++ "|" ++ p.role.toStr ++ "|" ++ toString p.iat
    ++ "|" ++ toString p.exp ++ "|" ++ p.jti

/-- Witness deserializer inverting `wEncode`; none on any malformed input,
the way JSON.parse failures surface. -/
def wDecode (s : String) : Option JwtPayload :=
  match jsSplit '|' s with
  | [sub, email, roleS, iatS, expS, jti] =>
    match UserRole.ofStr roleS, parseNat iatS.data, parseNat expS.data with
    | some role, some iat, some e =>
      some { sub := sub, email := email, role := role, iat := iat, exp := e,
             jti := jti }
    | _, _, _ => none
  | _ => none

/-- Witness MAC standing in for HMAC-SHA256/base64url: key-and-message
dependent and dot-free, as a base64url digest is. -/
def wHmac (secret msg : String) : String :=
  String.mk ((secret ++ "#" ++ msg).data.filter (fun ch => decide (ch ≠ '.')))

/-- Concrete crypto collaborator used by the witnesses. -/
def wCrypto : Crypto :=
  { hmac := wHmac, encodePayload := wEncode, decodePayload := wDecode,
    headerStr := "HDR" }

/-- Small witness configuration (theorems quantify over the configuration;
the defaults appear where a claim names them). -/
def wCfg : Config := { JWT_SECRET := "s", JWT_EXPIRY := 2, REFRESH_EXPIRY := 5 }

/-- Witness key-derivation collaborator: a fixed 64-byte derived key. -/
def wScrypt : String → String → List Nat := fun _ _ => List.replicate 64 0

/-- The empty rate-limit store. -/
def emptyRateStore : RateStore := fun _ => none

/-- Witness token payload. -/
def wPayload : JwtPayload :=
  { sub := "u1", email := "e", role := .admin, iat := 0, exp := 10, jti := "j" }

/-- Witness authenticated request. -/
def wReq : Request := { authHeader := none, user := some wPayload, ip := some "ip" }

/-- Witness active user whose stored hash is 64 bytes of 0xff. -/
def wUser : User :=
  { id := "u1", email := "a@b", username := "ada", passwordHash :=
      "aa:" ++ String.mk (List.replicate 128 'f'),
    role := .user, isActive := true }

/-- Rebuilding a string from its character data is the identity. -/
theorem stringMk_data (s : String) : String.mk s.data = s := rfl

/-- The payload generateAccessToken builds at clock second `now`. -/
def mintedAccessPayload (cfg : Config) (now : Nat) (jti userId email : String)
    (role : UserRole) : JwtPayload :=
  { sub := userId, email := email, role := role, iat := now,
    exp := now + cfg.JWT_EXPIRY, jti := jti }

/-- The payload generateRefreshToken builds at clock second `now`. -/
def mintedRefreshPayload (cfg : Config) (now : Nat) (jti userId email : String)
    (role : UserRole) : JwtPayload :=
  { sub := userId, email := email, role := role, iat := now,
    exp := now + cfg.REFRESH_EXPIRY, jti := jti }

/-- A signed token splits on dots into exactly its header, payload and
signature segments, provided each segment is dot-free (as base64url output
is). -/
theorem jsSplit_sign (c : Crypto) (p : JwtPayload) (secret : String)
    (hh : '.' ∉ c.headerStr.data)
    (hb : '.' ∉ (c.encodePayload p).data)
    (hs : '.' ∉ (c.hmac secret (c.headerStr ++ "." ++ c.encodePayload p)).data) :
    jsSplit '.' (sign c p secret)
      = [c.headerStr, c.encodePayload p,
         c.hmac secret (c.headerStr ++ "." ++ c.encodePayload p)] := by
  unfold jsSplit sign
  have hdot : (".").data = ['.'] := rfl
  have hdata :
      (c.headerStr ++ "." ++ c.encodePayload p ++ "." ++
        c.hmac secret (c.headerStr ++ "." ++ c.encodePayload p)).data
      = c.headerStr.data ++ '.' ::
          ((c.encodePayload p).data ++ '.' ::
            (c.hmac secret (c.headerStr ++ "." ++ c.encodePayload p)).data) := by
    simp [String.data_append, hdot]
  rw [hdata, splitSep_three _ _ _ hh hb hs]
  simp [stringMk_data]

/-- Evaluation of verifyToken on a token produced by sign: the outcome is
decided by whether the recomputed HMAC (under the secret the requested kind
selects) matches the one embedded at signing time, then by payload decoding
and the expiry comparison. -/
theorem verifyToken_sign_eq (c : Crypto) (cfg : Config) (now : Nat)
    (p : JwtPayload) (secret : String) (isRefresh : Bool)
    (hh : '.' ∉ c.headerStr.data)
    (hb : '.' ∉ (c.encodePayload p).data)
    (hs : '.' ∉ (c.hmac secret (c.headerStr ++ "." ++ c.encodePayload p)).data) :
    verifyToken c cfg now (sign c p secret) isRefresh =
      if c.hmac (if isRefresh then cfg.JWT_SECRET ++ "_refresh" else cfg.JWT_SECRET)
           (c.headerStr ++ "." ++ c.encodePayload p)
         ≠ c.hmac secret (c.headerStr ++ "." ++ c.encodePayload p) then none
      else
        (c.decodePayload (c.encodePayload p)).bind
          (fun payload => if payload.exp < now then none else some payload) := by
  unfold verifyToken
  rw [jsSplit_sign c p secret hh hb hs]

/-- C5: for every subject, email, role and kind, verifying a token
immediately after minting it (same clock second, matching kind) succeeds
and returns exactly the minted payload (same sub, email, role, iat, exp,
jti); and for the same token, at any clock strictly past its exp,
verifyToken returns none. The dot-free and round-trip hypotheses are the
contracts of the external base64url/JSON collaborators. -/
theorem mint_verify_roundtrip (c : Crypto) (cfg : Config) (now later : Nat)
    (jti userId email : String) (role : UserRole)
    (hh : '.' ∉ c.headerStr.data)
    (hbA : '.' ∉ (c.encodePayload (mintedAccessPayload cfg now jti userId email role)).data)
    (hsA : '.' ∉ (c.hmac cfg.JWT_SECRET
      (c.headerStr ++ "." ++ c.encodePayload (mintedAccessPayload cfg now jti userId email role))).data)
    (hrtA : c.decodePayload (c.encodePayload (mintedAccessPayload cfg now jti userId email role))
      = some (mintedAccessPayload cfg now jti userId email role))
    (hbR : '.' ∉ (c.encodePayload (mintedRefreshPayload cfg now jti userId email role)).data)
    (hsR : '.' ∉ (c.hmac (cfg.JWT_SECRET ++ "_refresh")
      (c.headerStr ++ "." ++ c.encodePayload (mintedRefreshPayload cfg now jti userId email role))).data)
    (hrtR : c.decodePayload (c.encodePayload (mintedRefreshPayload cfg now jti userId email role))
      = some (mintedRefreshPayload cfg now jti userId email role)) :
    verifyToken c cfg now (generateAccessToken c cfg now jti userId email role) false
      = some (mintedAccessPayload cfg now jti userId email role)
    ∧ verifyToken c cfg now (generateRefreshToken c cfg now jti userId email role) true
      = some (mintedRefreshPayload cfg now jti userId email role)
    ∧ (now + cfg.JWT_EXPIRY < later →
        verifyToken c cfg later (generateAccessToken c cfg now jti userId email role) false = none)
    ∧ (now + cfg.REFRESH_EXPIRY < later →
        verifyToken c cfg later (generateRefreshToken c cfg now jti userId email role) true = none) := by
  have hA : generateAccessToken c cfg now jti userId email role
      = sign c (mintedAccessPayload cfg now jti userId email role) cfg.JWT_SECRET := rfl
  have hR : generateRefreshToken c cfg now jti userId email role
      = sign c (mintedRefreshPayload cfg now jti userId email role)
          (cfg.JWT_SECRET ++ "_refresh") := rfl
  refine ⟨?_, ?_, ?_, ?_⟩
  · rw [hA, verifyToken_sign_eq c cfg now _ _ false hh hbA hsA]
    rw [if_neg (by simp), hrtA]
    simp only [Option.some_bind]
    rw [if_neg (by simp only [mintedAccessPayload]; omega)]
  · rw [hR, verifyToken_sign_eq c cfg now _ _ true hh hbR hsR]
    rw [if_neg (by simp), hrtR]
    simp only [Option.some_bind]
    rw [if_neg (by simp only [mintedRefreshPayload]; omega)]
  · intro hlate
    rw [hA, verifyToken_sign_eq c cfg later _ _ false hh hbA hsA]
    rw [if_neg (by simp), hrtA]
    simp only [Option.some_bind]
    rw [if_pos (by simp only [mintedAccessPayload]; omega)]
  · intro hlate
    rw [hR, verifyToken_sign_eq c cfg later _ _ true hh hbR hsR]
    rw [if_neg (by simp), hrtR]
    simp only [Option.some_bind]
    rw [if_pos (by simp only [mintedRefreshPayload]; omega)]

/-- Witness for C5: with the concrete collaborators, an access token minted
at second 1 verifies then and there to its minted payload, and the refresh
token minted at second 1 no longer verifies at second 100 (past its exp). -/
theorem mint_verify_roundtrip_witness :
    verifyToken wCrypto wCfg 1
        (generateAccessToken wCrypto wCfg 1 "j" "u" "e" UserRole.user) false
      = some (mintedAccessPayload wCfg 1 "j" "u" "e" UserRole.user)
    ∧ verifyToken wCrypto wCfg 100
        (generateRefreshToken wCrypto wCfg 1 "j" "u" "e" UserRole.user) true
      = none :=
  ⟨(mint_verify_roundtrip wCrypto wCfg 1 100 "j" "u" "e" UserRole.user
      (by decide) (by decide) (by decide) (by decide) (by decide) (by decide)
      (by decide)).1,
   (mint_verify_roundtrip wCrypto wCfg 1 100 "j" "u" "e" UserRole.user
      (by decide) (by decide) (by decide) (by decide) (by decide) (by decide)
      (by decide)).2.2.2 (by decide)⟩

/-- C3: a token minted by generateAccessToken never verifies with
isRefresh = true, and a token minted by generateRefreshToken never verifies
with isRefresh = false, at any verification clock: the two kinds use
different effective secrets (the refresh secret is the access secret plus
the fixed suffix "_refresh"), so the recomputed HMAC cannot match the
embedded one. The inequality hypotheses are HMAC collision-freedom across
the two distinct keys on the concrete signed message. -/
theorem cross_kind_never_verifies (c : Crypto) (cfg : Config)
    (now checkNow : Nat) (jti userId email : String) (role : UserRole)
    (hh : '.' ∉ c.headerStr.data)
    (hbA : '.' ∉ (c.encodePayload (mintedAccessPayload cfg now jti userId email role)).data)
    (hsA : '.' ∉ (c.hmac cfg.JWT_SECRET
      (c.headerStr ++ "." ++ c.encodePayload (mintedAccessPayload cfg now jti userId email role))).data)
    (hneqA : c.hmac (cfg.JWT_SECRET ++ "_refresh")
        (c.headerStr ++ "." ++ c.encodePayload (mintedAccessPayload cfg now jti userId email role))
      ≠ c.hmac cfg.JWT_SECRET
        (c.headerStr ++ "." ++ c.encodePayload (mintedAccessPayload cfg now jti userId email role)))
    (hbR : '.' ∉ (c.encodePayload (mintedRefreshPayload cfg now jti userId email role)).data)
    (hsR : '.' ∉ (c.hmac (cfg.JWT_SECRET ++ "_refresh")
      (c.headerStr ++ "." ++ c.encodePayload (mintedRefreshPayload cfg now jti userId email role))).data)
    (hneqR : c.hmac cfg.JWT_SECRET
        (c.headerStr ++ "." ++ c.encodePayload (mintedRefreshPayload cfg now jti userId email role))
      ≠ c.hmac (cfg.JWT_SECRET ++ "_refresh")
        (c.headerStr ++ "." ++ c.encodePayload (mintedRefreshPayload cfg now jti userId email role))) :
    verifyToken c cfg checkNow
        (generateAccessToken c cfg now jti userId email role) true = none
    ∧ verifyToken c cfg checkNow
        (generateRefreshToken c cfg now jti userId email role) false = none := by
  have hA : generateAccessToken c cfg now jti userId email role
      = sign c (mintedAccessPayload cfg now jti userId email role) cfg.JWT_SECRET := rfl
  have hR : generateRefreshToken c cfg now jti userId email role
      = sign c (mintedRefreshPayload cfg now jti userId email role)
          (cfg.JWT_SECRET ++ "_refresh") := rfl
  constructor
  · rw [hA, verifyToken_sign_eq c cfg checkNow _ _ true hh hbA hsA]
    rw [if_pos (by simpa using hneqA)]
  · rw [hR, verifyToken_sign_eq c cfg checkNow _ _ false hh hbR hsR]
    rw [if_pos (by simpa using hneqR)]

/-- Witness for C3 at the concrete collaborators: the access token minted at
second 1 is rejected by refresh-kind verification at the same instant, and
the refresh token by access-kind verification. -/
theorem cross_kind_never_verifies_witness :
    verifyToken wCrypto wCfg 1
        (generateAccessToken wCrypto wCfg 1 "j" "u" "e" UserRole.user) true = none
    ∧ verifyToken wCrypto wCfg 1
        (generateRefreshToken wCrypto wCfg 1 "j" "u" "e" UserRole.user) false = none :=
  cross_kind_never_verifies wCrypto wCfg 1 1 "j" "u" "e" UserRole.user
    (by decide) (by decide) (by decide) (by decide) (by decide) (by decide)
    (by decide)

/-- C2: refresh rotation is single-use. If a refresh call on state `db`
with token `t` succeeds, producing pair `pair` and state `db2`, and the
newly minted refresh token differs from `t` (freshness of the new token,
guaranteed in the source by the fresh random jti), then a second refresh
call presenting the same original `t` against `db2`, with no intervening
mutation, returns none: the UPDATE overwrote every stored refresh-token
equal to `t`, so no session row matches any more. -/
theorem refresh_single_use (c : Crypto) (cfg : Config) (nowMs : Nat)
    (jtiA jtiR jtiA2 jtiR2 : String) (db : List Session) (t : String)
    (pair : AuthTokens) (db2 : List Session)
    (h1 : SessionManager.refresh c cfg nowMs jtiA jtiR db t = some (pair, db2))
    (hfresh : pair.refreshToken ≠ t) :
    SessionManager.refresh c cfg nowMs jtiA2 jtiR2 db2 t = none := by
  unfold SessionManager.refresh at h1 ⊢
  cases hv : verifyToken c cfg (nowMs / 1000) t true with
  | none => rw [hv] at h1
  | some payload =>
    rw [hv] at h1
    simp only at h1
    by_cases hf :
        (db.filter (fun s => decide (s.refreshToken = t ∧ nowMs < s.expiresAt))).length = 0
    · rw [if_pos hf] at h1; exact absurd h1 (by simp)
    · rw [if_neg hf] at h1
      have h2 := Option.some.inj h1
      have hpair : createTokenPair c cfg (nowMs / 1000) jtiA jtiR
          payload.sub payload.email payload.role = pair := congrArg Prod.fst h2
      have hdb2 : db.map (fun s =>
          if s.refreshToken = t
          then { s with refreshToken := (createTokenPair c cfg (nowMs / 1000) jtiA jtiR
                  payload.sub payload.email payload.role).refreshToken }
          else s) = db2 := congrArg Prod.snd h2
      have hempty :
          db2.filter (fun s => decide (s.refreshToken = t ∧ nowMs < s.expiresAt)) = [] := by
        rw [← hdb2]
        refine List.filter_eq_nil_iff.mpr ?_
        intro s hs
        rcases List.mem_map.mp hs with ⟨s0, hs0, rfl⟩
        by_cases h0 : s0.refreshToken = t
        · rw [if_pos h0]
          simp only [decide_eq_true_eq, not_and]
          intro hcontra
          exact absurd (hpair ▸ hcontra) hfresh
        · rw [if_neg h0]
          simp [h0]
      simp [hempty]
      intro x hx hxt
      have hnot := List.filter_eq_nil_iff.mp hempty x hx
      simp only [decide_eq_true_eq, not_and, not_lt] at hnot
      exact hnot hxt

/-- Witness refresh token, minted at second 1. -/
def wTok : String := generateRefreshToken wCrypto wCfg 1 "j1" "u" "e" UserRole.user

/-- Witness session table holding wTok, far from expiry. -/
def wDb : List Session :=
  [{ id := "sid", userId := "u", refreshToken := wTok, userAgent := "ua",
     ipAddress := "ip", expiresAt := 999999, createdAt := 0 }]

/-- The pair the witness rotation mints (fresh jtis a2, r2). -/
def wPair : AuthTokens :=
  createTokenPair wCrypto wCfg 1 "a2" "r2" "u" "e" UserRole.user

/-- The witness session table after rotation: the stored refresh token has
been overwritten with the new value. -/
def wDb2 : List Session :=
  [{ id := "sid", userId := "u", refreshToken := wPair.refreshToken,
     userAgent := "ua", ipAddress := "ip", expiresAt := 999999, createdAt := 0 }]

/-- Witness for C2: one concrete refresh succeeds and rotates the stored
token; presenting the same original token again returns none. -/
theorem refresh_single_use_witness :
    SessionManager.refresh wCrypto wCfg 1000 "a2" "r2" wDb wTok = some (wPair, wDb2)
    ∧ SessionManager.refresh wCrypto wCfg 1000 "a3" "r3" wDb2 wTok = none :=
  ⟨by decide,
   refresh_single_use wCrypto wCfg 1000 "a2" "r2" "a3" "r3" wDb wTok wPair wDb2
     (by decide) (by decide)⟩

/-- C1: with the default configuration, the Session persisted by
SessionManager.create for a pair minted by createTokenPair has
expiresAt = creation time + JWT_EXPIRY seconds (the access-token TTL,
900 s), and in particular NOT creation time + REFRESH_EXPIRY (604800 s):
createTokenPair sets expiresIn to JWT_EXPIRY and create multiplies exactly
that by 1000. This evaluates the code at the claimed failing input. -/
theorem session_expiry_uses_access_ttl (c : Crypto) (nowMs : Nat)
    (jtiA jtiR sessionId userId email roleStr userAgent ipAddress : String)
    (role : UserRole) (db : List Session) :
    ((SessionManager.create nowMs sessionId userId email roleStr
        (createTokenPair c defaultConfig (nowMs / 1000) jtiA jtiR userId email role)
        userAgent ipAddress db).1).expiresAt
      = nowMs + defaultConfig.JWT_EXPIRY * 1000
    ∧ ((SessionManager.create nowMs sessionId userId email roleStr
        (createTokenPair c defaultConfig (nowMs / 1000) jtiA jtiR userId email role)
        userAgent ipAddress db).1).expiresAt
      ≠ nowMs + defaultConfig.REFRESH_EXPIRY * 1000 := by
  constructor
  · rfl
  · show nowMs + 900 * 1000 ≠ nowMs + 604800 * 1000
    omega

/-- Decidable equality for Except results, for evaluating fallible calls. -/
instance {ε α : Type} [DecidableEq ε] [DecidableEq α] :
    DecidableEq (Except ε α) := fun a b =>
  match a, b with
  | .error e1, .error e2 =>
    if h : e1 = e2 then .isTrue (by rw [h]) else .isFalse (by simp [h])
  | .ok v1, .ok v2 =>
    if h : v1 = v2 then .isTrue (by rw [h]) else .isFalse (by simp [h])
  | .error _, .ok _ => .isFalse (by simp)
  | .ok _, .error _ => .isFalse (by simp)

/-- C4 counterexample: a stored hash whose two halves are non-empty but
whose key half is not hex of the derived-key length makes comparePassword
surface the timingSafeEqual length exception instead of returning false:
"bb" hex-decodes to one byte against a 64-byte derived key. -/
theorem comparePassword_throws_on_bad_hex :
    comparePassword wScrypt "pw" "aa:bb"
      = Except.error "ERR_CRYPTO_TIMING_SAFE_EQUAL_LENGTH" := by decide

/-- C4 amended: comparePassword returns false, and never an exception, when
the stored value does not split on the colon into a non-empty salt and a
non-empty key half (the case the guard in the source covers); the
exception-free guarantee does NOT extend to a non-empty key half of the
wrong hex length, where the constant-time comparison throws (see the
counterexample). -/
theorem comparePassword_malformed_split (scrypt : String → String → List Nat)
    (password storedHash : String)
    (h : (jsSplit ':' storedHash).getD 0 "" = ""
      ∨ (jsSplit ':' storedHash).getD 1 "" = "") :
    comparePassword scrypt password storedHash = .ok false := by
  unfold comparePassword
  simp only
  rw [if_pos h]

/-- Witness for the amended C4: a stored value with no separator at all
yields false without an exception. -/
theorem comparePassword_malformed_split_witness :
    comparePassword wScrypt "pw" "nocolon" = .ok false :=
  comparePassword_malformed_split wScrypt "pw" "nocolon" (by decide)

/-- C6: rateLimitAuth case analysis, matching the claim exactly. (1) no
entry for the key: entry set to count 1 with reset time now + window,
request allowed; (2) entry whose window has elapsed: same reset, allowed;
(3) entry within its window at count >= maxAttempts: blocked with 429 and
the store left untouched (the count is not incremented); (4) entry within
its window below the cap: count incremented, allowed. Finally the concrete
scenario: with maxAttempts 3, three sequential calls on one key are
allowed, the fourth is blocked, and the first call after the window
elapses is allowed with the count reset to 1. -/
theorem rateLimitAuth_spec :
    (∀ (maxAttempts windowMs now : Nat) (req : Request) (store : RateStore),
      store (req.ip.getD "unknown") = none →
      rateLimitAuth maxAttempts windowMs now req store
        = (.next req, fun k => if k = req.ip.getD "unknown"
            then some { count := 1, resetAt := now + windowMs } else store k))
    ∧ (∀ (maxAttempts windowMs now : Nat) (req : Request) (store : RateStore)
        (entry : RateEntry),
      store (req.ip.getD "unknown") = some entry → entry.resetAt ≤ now →
      rateLimitAuth maxAttempts windowMs now req store
        = (.next req, fun k => if k = req.ip.getD "unknown"
            then some { count := 1, resetAt := now + windowMs } else store k))
    ∧ (∀ (maxAttempts windowMs now : Nat) (req : Request) (store : RateStore)
        (entry : RateEntry),
      store (req.ip.getD "unknown") = some entry → now < entry.resetAt →
      maxAttempts ≤ entry.count →
      rateLimitAuth maxAttempts windowMs now req store
        = (.respond (ApiResponse.err "Too many attempts. Try again later." 429),
           store))
    ∧ (∀ (maxAttempts windowMs now : Nat) (req : Request) (store : RateStore)
        (entry : RateEntry),
      store (req.ip.getD "unknown") = some entry → now < entry.resetAt →
      entry.count < maxAttempts →
      rateLimitAuth maxAttempts windowMs now req store
        = (.next req, fun k => if k = req.ip.getD "unknown"
            then some { count := entry.count + 1, resetAt := entry.resetAt }
            else store k))
    ∧ ((rateLimitAuth 3 100 0 wReq emptyRateStore).1 = .next wReq
      ∧ ((rateLimitAuth 3 100 0 wReq emptyRateStore).2 "ip")
          = some { count := 1, resetAt := 100 }
      ∧ (rateLimitAuth 3 100 1 wReq
          (rateLimitAuth 3 100 0 wReq emptyRateStore).2).1 = .next wReq
      ∧ (rateLimitAuth 3 100 2 wReq
          (rateLimitAuth 3 100 1 wReq
            (rateLimitAuth 3 100 0 wReq emptyRateStore).2).2).1 = .next wReq
      ∧ ((rateLimitAuth 3 100 2 wReq
          (rateLimitAuth 3 100 1 wReq
            (rateLimitAuth 3 100 0 wReq emptyRateStore).2).2).2 "ip")
          = some { count := 3, resetAt := 100 }
      ∧ (rateLimitAuth 3 100 3 wReq
          (rateLimitAuth 3 100 2 wReq
            (rateLimitAuth 3 100 1 wReq
              (rateLimitAuth 3 100 0 wReq emptyRateStore).2).2).2).1
          = .respond (ApiResponse.err "Too many attempts. Try again later." 429)
      ∧ ((rateLimitAuth 3 100 3 wReq
          (rateLimitAuth 3 100 2 wReq
            (rateLimitAuth 3 100 1 wReq
              (rateLimitAuth 3 100 0 wReq emptyRateStore).2).2).2).2 "ip")
          = some { count := 3, resetAt := 100 }
      ∧ (rateLimitAuth 3 100 150 wReq
          (rateLimitAuth 3 100 3 wReq
            (rateLimitAuth 3 100 2 wReq
              (rateLimitAuth 3 100 1 wReq
                (rateLimitAuth 3 100 0 wReq emptyRateStore).2).2).2).2).1
          = .next wReq
      ∧ ((rateLimitAuth 3 100 150 wReq
          (rateLimitAuth 3 100 3 wReq
            (rateLimitAuth 3 100 2 wReq
              (rateLimitAuth 3 100 1 wReq
                (rateLimitAuth 3 100 0 wReq emptyRateStore).2).2).2).2).2 "ip")
          = some { count := 1, resetAt := 250 }) := by
  refine ⟨?_, ?_, ?_, ?_, by decide⟩
  · intro maxAttempts windowMs now req store h
    unfold rateLimitAuth
    simp only [h]
  · intro maxAttempts windowMs now req store entry h hle
    unfold rateLimitAuth
    simp only [h]
    rw [if_neg (by omega)]
  · intro maxAttempts windowMs now req store entry h hwin hcap
    unfold rateLimitAuth
    simp only [h]
    rw [if_pos hwin, if_pos hcap]
  · intro maxAttempts windowMs now req store entry h hwin hbelow
    unfold rateLimitAuth
    simp only [h]
    rw [if_pos hwin, if_neg (by omega)]

/-- Witness for C6: a call on an empty store allows the request and creates
the count-1 entry with the fresh reset time. -/
theorem rateLimitAuth_spec_witness :
    rateLimitAuth 3 100 0 wReq emptyRateStore
      = (.next wReq, fun k => if k = wReq.ip.getD "unknown"
          then some { count := 1, resetAt := 0 + 100 } else emptyRateStore k) :=
  rateLimitAuth_spec.1 3 100 0 wReq emptyRateStore rfl

/-- C7: hasPermission role p holds exactly when p is a member of the
explicitly authored RolePermissions entry for that role, with no
inheritance between roles; in particular the User role lacks ListUsers
while Moderator has it; and a role string with no table entry yields
false. -/
theorem hasPermission_spec :
    (∀ (role : String) (p : Permission),
      hasPermission role p = true ↔
        ∃ perms, mapGet role RolePermissions = some perms ∧ p ∈ perms)
    ∧ hasPermission UserRole.user.toStr Permission.listUsers = false
    ∧ hasPermission UserRole.moderator.toStr Permission.listUsers = true
    ∧ (∀ (role : String) (p : Permission),
        mapGet role RolePermissions = none → hasPermission role p = false) := by
  refine ⟨?_, by decide, by decide, ?_⟩
  · intro role p
    unfold hasPermission
    cases h : mapGet role RolePermissions with
    | none => simp
    | some perms => simp
  · intro role p h
    unfold hasPermission
    simp only [h]

/-- Witness for C7: an unknown role string has no table entry and no
permission at all. -/
theorem hasPermission_spec_witness :
    hasPermission "superuser" Permission.listUsers = false :=
  hasPermission_spec.2.2.2 "superuser" Permission.listUsers (by decide)

/-- C9: for an authenticated request (payload attached), requireRole lets
the request through to the handler exactly when the attached role is in the
required set, and otherwise stops the chain with the 403 Forbidden
response, never calling next(). -/
theorem requireRole_spec (roles : List UserRole) (req : Request)
    (u : JwtPayload) (h : req.user = some u) :
    (u.role ∈ roles → requireRole roles req = .next req)
    ∧ (u.role ∉ roles →
        requireRole roles req = .respond (ApiResponse.err "Forbidden" 403)) := by
  unfold requireRole
  simp only [h]
  constructor
  · intro hm; rw [if_pos hm]
  · intro hm; rw [if_neg hm]

/-- Witness for C9: the admin-role request passes an admin gate and is
rejected with 403 by a moderator-only gate. -/
theorem requireRole_spec_witness :
    requireRole [UserRole.admin] wReq = .next wReq
    ∧ requireRole [UserRole.moderator] wReq
        = .respond (ApiResponse.err "Forbidden" 403) :=
  ⟨(requireRole_spec [UserRole.admin] wReq wPayload rfl).1 (by decide),
   (requireRole_spec [UserRole.moderator] wReq wPayload rfl).2 (by decide)⟩

/-- Witness user store with no matching record. -/
def wFindNone : String → Option User := fun _ => none

/-- Witness user store holding the active wUser under its email. -/
def wFindSome : String → Option User :=
  fun e => if e = "a@b" then some wUser else none

/-- C8: login is non-enumerating. When no user record matches the email,
and when a record matches, is active , and the supplied password fails
verification, login returns the very same response value
invalidCredentials, whose contents are success false, error string
"Invalid credentials" and status 401 — an external caller cannot
distinguish the two cases from the response. -/
theorem login_no_user_enumeration :
    (∀ (c : Crypto) (cfg : Config) (scrypt : String → String → List Nat)
       (findByEmail : String → Option User) (nowMs : Nat)
       (jtiA jtiR sessionId credEmail credPassword ip userAgent : String)
       (db : List Session),
      findByEmail credEmail = none →
      AuthController.login c cfg scrypt findByEmail nowMs jtiA jtiR sessionId
        credEmail credPassword ip userAgent db = .ok (invalidCredentials, db))
    ∧ (∀ (c : Crypto) (cfg : Config) (scrypt : String → String → List Nat)
       (findByEmail : String → Option User) (nowMs : Nat)
       (jtiA jtiR sessionId credEmail credPassword ip userAgent : String)
       (db : List Session) (u : User),
      findByEmail credEmail = some u → u.isActive = true →
      comparePassword scrypt credPassword u.passwordHash = .ok false →
      AuthController.login c cfg scrypt findByEmail nowMs jtiA jtiR sessionId
        credEmail credPassword ip userAgent db = .ok (invalidCredentials, db))
    ∧ invalidCredentials
        = { success := false, data := none, error := some "Invalid credentials",
            message := none, statusCode := 401 } := by
  refine ⟨?_, ?_, rfl⟩
  · intro c cfg scrypt findByEmail nowMs jtiA jtiR sessionId credEmail
      credPassword ip userAgent db h
    unfold AuthController.login
    simp only [h]
  · intro c cfg scrypt findByEmail nowMs jtiA jtiR sessionId credEmail
      credPassword ip userAgent db u hfind hact hcmp
    unfold AuthController.login
    simp only [hfind]
    rw [if_neg (by simp [hact])]
    simp only [hcmp]

set_option maxRecDepth 4096 in
/-- Witness for C8: unknown email and wrong password against the active
witness user produce the identical invalid-credentials response. -/
theorem login_no_user_enumeration_witness :
    AuthController.login wCrypto wCfg wScrypt wFindNone 1000 "a" "r" "sid"
        "x@y" "pw" "ip" "ua" [] = .ok (invalidCredentials, [])
    ∧ AuthController.login wCrypto wCfg wScrypt wFindSome 1000 "a" "r" "sid"
        "a@b" "pw" "ip" "ua" [] = .ok (invalidCredentials, []) :=
  ⟨login_no_user_enumeration.1 wCrypto wCfg wScrypt wFindNone 1000 "a" "r"
      "sid" "x@y" "pw" "ip" "ua" [] rfl,
   login_no_user_enumeration.2.1 wCrypto wCfg wScrypt wFindSome 1000 "a" "r"
      "sid" "a@b" "pw" "ip" "ua" [] wUser (by decide) rfl (by decide)⟩

/-- The witness user with its isActive flag cleared. -/
def wUserInactive : User := { wUser with isActive := false }

/-- Witness user store holding the deactivated user under its email. -/
def wFindInactive : String → Option User :=
  fun e => if e = "a@b" then some wUserInactive else none

/-- C10: when the email matches a user record whose isActive flag is false,
login returns the same generic invalidCredentials 401 response as for an
unknown email (see login_no_user_enumeration), for EVERY key-derivation
collaborator — the quantification over scrypt after the hypotheses
expresses that comparePassword is never invoked on this path, so a
deactivated account is externally indistinguishable from a nonexistent
one. -/
theorem login_inactive_indistinguishable (c : Crypto) (cfg : Config)
    (findByEmail : String → Option User) (nowMs : Nat)
    (jtiA jtiR sessionId credEmail credPassword ip userAgent : String)
    (db : List Session) (u : User)
    (hfind : findByEmail credEmail = some u) (hact : u.isActive = false) :
    ∀ scrypt : String → String → List Nat,
      AuthController.login c cfg scrypt findByEmail nowMs jtiA jtiR sessionId
        credEmail credPassword ip userAgent db = .ok (invalidCredentials, db) := by
  intro scrypt
  unfold AuthController.login
  simp only [hfind]
  rw [if_pos hact]

/-- Witness for C10: login against the deactivated witness user yields the
generic invalid-credentials response. -/
theorem login_inactive_indistinguishable_witness :
    AuthController.login wCrypto wCfg wScrypt wFindInactive 1000 "a" "r" "sid"
        "a@b" "pw" "ip" "ua" [] = .ok (invalidCredentials, []) :=
  login_inactive_indistinguishable wCrypto wCfg wFindInactive 1000 "a" "r"
    "sid" "a@b" "pw" "ip" "ua" [] wUserInactive (by decide) rfl wScrypt
